import Mathlib

/-!
Verification of the IKF-PhoneBook contact core: the raw contact parser
(server/services/contactParser.js) and the duplicate detector / merger
(server/services/duplicateDetector.js), shallowly embedded in Lean 4.

JavaScript strings are modelled as Lean `String` (lists of characters);
the JS library functions used by the code (`trim`, `toLowerCase`,
`split`, `includes`, `replace`, regex search) are given explicit
structurally recursive models below, so that every definition evaluates
inside the kernel.  A JS value that can be `null`/`undefined` or a
string is modelled as `Option String`; JS truthiness on such a value
(null, undefined and the empty string are falsy) is `jsTruthy` /
comparison with `""`.

Floating point scores: the detector adds the float weights 0.4, 0.4 and
0.3 and compares with 0.4 and 0.8.  For every subset sum of these
weights the IEEE-double comparison agrees with exact arithmetic (in
doubles, 0.4 + 0.4 is exactly the double nearest 0.8, and 0.4 + 0.3
stays strictly between 0.7 and 0.8), so the detector score is modelled
exactly, scaled by ten: weights 4, 4, 3 and thresholds 4 and 8.
-/

/-- Model of JS truthiness for a nullable string: `null`/`undefined`
and the empty string are falsy. -/
def jsTruthy : Option String → Bool
  | none => false
  | some s => s ≠ ""

/-- Model of `String.prototype.trim`: drop whitespace from both ends. -/
def jsTrim (s : String) : String :=
  String.mk (((s.data.dropWhile Char.isWhitespace).reverse.dropWhile Char.isWhitespace).reverse)

/-- Model of `String.prototype.toLowerCase` (ASCII-faithful). -/
def jsToLower (s : String) : String :=
  String.mk (s.data.map Char.toLower)

/-- Worker for `jsSplitChar`: the accumulator holds the current field
reversed, exactly one field is emitted per separator occurrence. -/
def jsSplitCharGo (sep : Char) : List Char → List Char → List (List Char)
  | [], acc => [acc.reverse]
  | c :: rest, acc =>
    if c = sep then acc.reverse :: jsSplitCharGo sep rest []
    else jsSplitCharGo sep rest (c :: acc)

/-- Model of `String.prototype.split` with a one-character separator:
`"a,b".split(",") = ["a","b"]`, `"".split(",") = [""]`. -/
def jsSplitChar (sep : Char) (s : String) : List String :=
  (jsSplitCharGo sep s.data []).map String.mk

/-- Worker for `jsSplitWs`: splits on runs of whitespace, as the JS
regex split `split(/\s+/)` does; the flag records whether the previous
character belonged to a whitespace run. -/
def jsSplitWsGo : Bool → List Char → List Char → List (List Char)
  | _, [], acc => [acc.reverse]
  | inRun, c :: rest, acc =>
    if c.isWhitespace then
      if inRun then jsSplitWsGo true rest acc
      else acc.reverse :: jsSplitWsGo true rest []
    else jsSplitWsGo false rest (c :: acc)

/-- Model of `split(/\s+/)`: split on maximal whitespace runs; leading
or trailing whitespace yields an empty leading or trailing field. -/
def jsSplitWs (s : String) : List String :=
  (jsSplitWsGo false s.data []).map String.mk

/-- Worker for `jsSplitDash`: splits on occurrences of `" - "`. -/
def jsSplitDashGo : List Char → List Char → List (List Char)
  | [], acc => [acc.reverse]
  | ' ' :: '-' :: ' ' :: rest, acc => acc.reverse :: jsSplitDashGo rest []
  | c :: rest, acc => jsSplitDashGo rest (c :: acc)

/-- Model of `String.prototype.split(" - ")`. -/
def jsSplitDash (s : String) : List String :=
  (jsSplitDashGo s.data []).map String.mk

/-- Model of `Array.prototype.join(sep)`. -/
def jsJoin (sep : String) : List String → String
  | [] => ""
  | [x] => x
  | x :: xs => x ++ sep ++ jsJoin sep xs

/-- Model of `String.prototype.includes(sub)`: `sub` occurs
contiguously in `s` (the empty string occurs in every string). -/
def jsIncludes (s sub : String) : Bool :=
  (List.range (s.data.length + 1)).any
    (fun i => decide ((s.data.drop i).take sub.data.length = sub.data))

/-- Model of `String.prototype.replace(target, "")` with a plain string
target: remove the first (leftmost) occurrence of `target`, or return
`s` unchanged when `target` does not occur. -/
def jsReplaceFirst (s target : String) : String :=
  match (List.range (s.data.length + 1)).find?
      (fun i => decide ((s.data.drop i).take target.data.length = target.data)) with
  | some i => String.mk (s.data.take i ++ s.data.drop (i + target.data.length))
  | none => s

/-- Model of `part.charAt(0).toUpperCase() + part.slice(1).toLowerCase()`. -/
def jsCapitalize (s : String) : String :=
  match s.data with
  | [] => ""
  | c :: rest => String.mk (c.toUpper :: rest.map Char.toLower)

/-!
A small backtracking regex engine covering exactly the constructs used
by the contact parser regexes: character classes, sequencing, greedy
`?`, greedy one-or-more of a character class, and bounded repetition
(encoded with `seq`/`opt`).  `reMatches` returns the list of possible
remaining suffixes in JS backtracking preference order (greedy
quantifiers first), so the head of the list corresponds to the match
the JS engine commits to.
-/

/-- Regex syntax: empty, one character from a class, sequencing,
greedy option, greedy one-or-more repetition of a character class. -/
inductive RE where
  | eps : RE
  | cls (p : Char → Bool) : RE
  | seq (a b : RE) : RE
  | opt (a : RE) : RE
  | rep1 (p : Char → Bool) : RE

/-- Suffixes remaining after a greedy one-or-more repetition of the
class `p`, longest consumption first. -/
def rep1Matches (p : Char → Bool) : List Char → List (List Char)
  | [] => []
  | c :: rest => if p c then rep1Matches p rest ++ [rest] else []

/-- All suffixes remaining after matching `re` at the start of `s`, in
JS backtracking preference order. -/
def reMatches : RE → List Char → List (List Char)
  | .eps, s => [s]
  | .cls _, [] => []
  | .cls p, c :: rest => if p c then [rest] else []
  | .seq a b, s => (reMatches a s).flatMap (reMatches b)
  | .opt a, s => reMatches a s ++ [s]
  | .rep1 p, s => rep1Matches p s

/-- Model of `line.match(re)[0]` for an unanchored regex: the substring
the JS engine matches first, scanning start positions left to right and
taking the backtracking-preferred match at the first position that
matches at all. -/
def reFirstMatch (re : RE) (s : List Char) : Option (List Char) :=
  (List.range (s.length + 1)).findSome? fun i =>
    match reMatches re (s.drop i) with
    | [] => none
    | rest :: _ => some ((s.drop i).take ((s.drop i).length - rest.length))

/-- Model of `re.test(s)` for a fully anchored regex `^...$`: some
backtracking path consumes the whole string. -/
def reFull (re : RE) (s : String) : Bool :=
  (reMatches re s.data).any (fun rest => rest.isEmpty)

/-- Sequence a list of regexes. -/
def reSeq (l : List RE) : RE := l.foldr RE.seq RE.eps

/-!
Embedding of `server/services/contactParser.js`.
-/

/-- `formatPhoneNumber(phone)`: strips non-digits and prefixes a `+`
form by digit count; returns the original string when fewer than ten
digits remain, and `null` (here `none`) only on falsy input. -/
def formatPhoneNumber (phone : String) : Option String :=
  if phone = "" then none
  else
    let cleaned := String.mk (phone.data.filter Char.isDigit)
    if cleaned.length = 10 then some ("+1" ++ cleaned)
    else if cleaned.length = 11 ∧ cleaned.data.head? = some '1' then some ("+" ++ cleaned)
    else if cleaned.length = 12 ∧ cleaned.data.take 2 = ['9', '1'] then some ("+" ++ cleaned)
    else if cleaned.length ≥ 10 then some ("+" ++ cleaned)
    else some phone

/-- The character class `[^\s@]` of the email validation regex. -/
def emailValCls (c : Char) : Bool := !c.isWhitespace && c ≠ '@'

/-- The anchored email validation regex `^[^\s@]+@[^\s@]+\.[^\s@]+$`. -/
def emailValRE : RE :=
  reSeq [.rep1 emailValCls, .cls (· = '@'), .rep1 emailValCls, .cls (· = '.'), .rep1 emailValCls]

/-- `validateEmail(email)`: the input unchanged when it passes the
anchored regex test, else `null`. -/
def validateEmail (email : String) : Option String :=
  if email = "" then none
  else if reFull emailValRE email then some email else none

/-- `detectRelationshipType(text)`: keyword scan over the lowercased
text, first matching rule wins. -/
def detectRelationshipType (text : String) : String :=
  if text = "" then "Other"
  else
    let lowerText := jsToLower text
    if jsIncludes lowerText "client" || jsIncludes lowerText "customer" then "Client"
    else if jsIncludes lowerText "vendor" || jsIncludes lowerText "supplier" then "Vendor"
    else if jsIncludes lowerText "lead" || jsIncludes lowerText "prospect" then "Lead"
    else if jsIncludes lowerText "partner" || jsIncludes lowerText "associate" then "Partner"
    else "Other"

/-- `parseName(nameText)`: trim, split on whitespace runs; one token is
the first name, two tokens are first and last, more tokens join the
tail with single spaces into the last name.  Returns the pair
`(first_name, last_name)`. -/
def parseName (nameText : String) : String × String :=
  if nameText = "" then ("", "")
  else
    let name := jsTrim nameText
    let parts := jsSplitWs name
    if parts.length = 1 then (parts.getD 0 "", "")
    else if parts.length = 2 then (parts.getD 0 "", parts.getD 1 "")
    else (parts.getD 0 "", jsJoin " " (parts.drop 1))

/-- A parsed candidate contact.  JS objects from the several strategies
carry their optional fields as absent, `null`, or a string; absent and
`null` coincide on every use site (truthiness tests), so both are
`none`. -/
structure Contact where
  first_name : String
  last_name : String
  phone_number : Option String
  email : Option String
  relationship_type : Option String
deriving DecidableEq, Repr

/-- `parseCommaSeparated(line)`: split on commas, trim the parts, and
require at least two; part 0 is the name, part 1 the phone, part 2 the
optional email, part 3 the optional relationship type. -/
def parseCommaSeparated (line : String) : Option Contact :=
  let parts := (jsSplitChar ',' line).map jsTrim
  if parts.length < 2 then none
  else
    let nameInfo := parseName (parts.getD 0 "")
    let c1 : Contact :=
      { first_name := nameInfo.1, last_name := nameInfo.2,
        phone_number := none, email := none, relationship_type := none }
    let c2 := if parts.getD 1 "" ≠ "" then { c1 with phone_number := formatPhoneNumber (parts.getD 1 "") } else c1
    let c3 := if parts.getD 2 "" ≠ "" then { c2 with email := validateEmail (parts.getD 2 "") } else c2
    let c4 := if parts.getD 3 "" ≠ "" then { c3 with relationship_type := some (detectRelationshipType (parts.getD 3 "")) } else c3
    some c4

/-- `parseTabSeparated(line)`: identical mapping, splitting on tab. -/
def parseTabSeparated (line : String) : Option Contact :=
  let parts := (jsSplitChar '\t' line).map jsTrim
  if parts.length < 2 then none
  else
    let nameInfo := parseName (parts.getD 0 "")
    let c1 : Contact :=
      { first_name := nameInfo.1, last_name := nameInfo.2,
        phone_number := none, email := none, relationship_type := none }
    let c2 := if parts.getD 1 "" ≠ "" then { c1 with phone_number := formatPhoneNumber (parts.getD 1 "") } else c1
    let c3 := if parts.getD 2 "" ≠ "" then { c2 with email := validateEmail (parts.getD 2 "") } else c2
    let c4 := if parts.getD 3 "" ≠ "" then { c3 with relationship_type := some (detectRelationshipType (parts.getD 3 "")) } else c3
    some c4

/-- The `/[\d\-\(\)\s]/` test of the space-separated strategy: the part
contains a digit, dash, parenthesis or whitespace character. -/
def phoneishTest (part : String) : Bool :=
  part.data.any (fun c => c.isDigit || c = '-' || c = '(' || c = ')' || c.isWhitespace)

/-- Mutable loop state of the space-separated strategy. -/
structure SpState where
  nameParts : List String
  phoneNumber : Option String
  email : Option String
  relationshipType : String
deriving Repr

/-- One iteration of the space-separated classification loop: a part
becomes the phone (first phone-ish part wins), else the email, else the
relationship type, else a name token. -/
def spStep (st : SpState) (part : String) : SpState :=
  if !(jsTruthy st.phoneNumber) && phoneishTest part then
    { st with phoneNumber := formatPhoneNumber part }
  else if !(jsTruthy st.email) && jsIncludes part "@" then
    { st with email := validateEmail part }
  else if jsToLower part ∈ ["client", "vendor", "lead", "partner", "other"] then
    { st with relationshipType := jsCapitalize part }
  else
    { st with nameParts := st.nameParts ++ [part] }

/-- `parseSpaceSeparated(line)`: split on whitespace runs, require at
least three tokens, classify each token once; fails when no name token
or no phone was found. -/
def parseSpaceSeparated (line : String) : Option Contact :=
  let parts := jsSplitWs line
  if parts.length < 3 then none
  else
    let st := parts.foldl spStep { nameParts := [], phoneNumber := none, email := none, relationshipType := "Other" }
    if st.nameParts.length = 0 ∨ ¬ jsTruthy st.phoneNumber then none
    else
      let nameInfo := parseName (jsJoin " " st.nameParts)
      some { first_name := nameInfo.1, last_name := nameInfo.2,
             phone_number := st.phoneNumber, email := st.email,
             relationship_type := some st.relationshipType }

/-- Separator class `[-.\s]` of the phone patterns. -/
def phoneSepCls (c : Char) : Bool := c = '-' || c = '.' || c.isWhitespace

/-- `\d{1,3}` with greedy preference, encoded with nested options. -/
def reDigits13 : RE :=
  .seq (.cls Char.isDigit) (.opt (.seq (.cls Char.isDigit) (.opt (.cls Char.isDigit))))

/-- The optional country-code group `(\+?\d{1,3}[-.\s]?)?`. -/
def reCountry : RE :=
  .opt (reSeq [.opt (.cls (· = '+')), reDigits13, .opt (.cls phoneSepCls)])

/-- First phone pattern
`(\+?\d{1,3}[-.\s]?)?\(?([0-9]{3})\)?[-.\s]?([0-9]{3})[-.\s]?([0-9]{4})`. -/
def phonePattern1 : RE :=
  reSeq [reCountry, .opt (.cls (· = '(')),
         .cls Char.isDigit, .cls Char.isDigit, .cls Char.isDigit,
         .opt (.cls (· = ')')), .opt (.cls phoneSepCls),
         .cls Char.isDigit, .cls Char.isDigit, .cls Char.isDigit,
         .opt (.cls phoneSepCls),
         .cls Char.isDigit, .cls Char.isDigit, .cls Char.isDigit, .cls Char.isDigit]

/-- Second phone pattern, the same without the optional parentheses. -/
def phonePattern2 : RE :=
  reSeq [reCountry,
         .cls Char.isDigit, .cls Char.isDigit, .cls Char.isDigit,
         .opt (.cls phoneSepCls),
         .cls Char.isDigit, .cls Char.isDigit, .cls Char.isDigit,
         .opt (.cls phoneSepCls),
         .cls Char.isDigit, .cls Char.isDigit, .cls Char.isDigit, .cls Char.isDigit]

/-- Email search pattern `[a-zA-Z0-9._%+-]+@[a-zA-Z0-9.-]+\.[a-zA-Z]{2,}`. -/
def emailSearchRE : RE :=
  reSeq [.rep1 (fun c => c.isAlpha || c.isDigit || c = '.' || c = '_' || c = '%' || c = '+' || c = '-'),
         .cls (· = '@'),
         .rep1 (fun c => c.isAlpha || c.isDigit || c = '.' || c = '-'),
         .cls (· = '.'),
         .cls Char.isAlpha, .rep1 Char.isAlpha]

/-- `parseByPattern(line)`: regex-sweep strategy.  Note that the code
formats the matched phone substring first and then removes the
formatted string (not the matched substring) from the line. -/
def parseByPattern (line : String) : Option Contact :=
  let phoneNumber : Option String :=
    match reFirstMatch phonePattern1 line.data with
    | some m => formatPhoneNumber (String.mk m)
    | none =>
      match reFirstMatch phonePattern2 line.data with
      | some m => formatPhoneNumber (String.mk m)
      | none => none
  let email : Option String :=
    match reFirstMatch emailSearchRE line.data with
    | some m => validateEmail (String.mk m)
    | none => none
  let nameText1 := line
  let nameText2 := if jsTruthy phoneNumber then jsTrim (jsReplaceFirst nameText1 (phoneNumber.getD "")) else nameText1
  let nameText3 := if jsTruthy email then jsTrim (jsReplaceFirst nameText2 (email.getD "")) else nameText2
  let nameText := jsTrim (String.mk (nameText3.data.filter (fun c => !(c = ',' || c = ';'))))
  if nameText = "" ∨ ¬ jsTruthy phoneNumber then none
  else
    let nameInfo := parseName nameText
    some { first_name := nameInfo.1, last_name := nameInfo.2,
           phone_number := phoneNumber, email := email,
           relationship_type := some "Other" }

/-- `parseContactLine(line)`: the strategy chain, first non-null result
wins, in the order comma, tab, space, pattern. -/
def parseContactLine (line : String) : Option Contact :=
  match parseCommaSeparated line with
  | some commaSeparated => some commaSeparated
  | none =>
    match parseTabSeparated line with
    | some tabSeparated => some tabSeparated
    | none =>
      match parseSpaceSeparated line with
      | some spaceSeparated => some spaceSeparated
      | none => parseByPattern line

/-- The per-line loop of `parseRawContactData`: trim, skip blanks,
parse, and keep contacts with truthy `first_name` and `phone_number`. -/
def parseRawLoop : List String → List Contact
  | [] => []
  | l :: rest =>
    let line := jsTrim l
    if line = "" then parseRawLoop rest
    else
      match parseContactLine line with
      | some contact =>
        if contact.first_name ≠ "" ∧ jsTruthy contact.phone_number then contact :: parseRawLoop rest
        else parseRawLoop rest
      | none => parseRawLoop rest

/-- `parseRawContactData(rawData)`: split on newlines, drop blank
lines, parse each remaining line independently. -/
def parseRawContactData (rawData : String) : List Contact :=
  parseRawLoop ((jsSplitChar '\n' rawData).filter (fun line => jsTrim line ≠ ""))

/-- `validateParsedContact(contact)`: truthy first name and phone,
phone string at least ten characters long, and a truthy email must
contain an `@`. -/
def validateParsedContact (contact : Contact) : Bool :=
  if contact.first_name = "" ∨ ¬ jsTruthy contact.phone_number then false
  else if (contact.phone_number.getD "").length < 10 then false
  else if jsTruthy contact.email ∧ ¬ jsIncludes (contact.email.getD "") "@" then false
  else true

/-- `parseAlternativeFormats(line)`: the `" - "`-separated fallback of
the enhanced path; at least two parts, name, phone, optional email, no
relationship type. -/
def parseAlternativeFormats (line : String) : Option Contact :=
  let dashSeparated := (jsSplitDash line).map jsTrim
  if dashSeparated.length ≥ 2 then
    let nameInfo := parseName (dashSeparated.getD 0 "")
    let c1 : Contact :=
      { first_name := nameInfo.1, last_name := nameInfo.2,
        phone_number := none, email := none, relationship_type := none }
    let c2 := if dashSeparated.getD 1 "" ≠ "" then { c1 with phone_number := formatPhoneNumber (dashSeparated.getD 1 "") } else c1
    let c3 := if dashSeparated.getD 2 "" ≠ "" then { c2 with email := validateEmail (dashSeparated.getD 2 "") } else c2
    some c3
  else none

/-- The per-line loop of `parseRawContactDataEnhanced`: the strategy
chain plus the dash fallback, kept only when `validateParsedContact`
passes. -/
def parseEnhancedLoop : List String → List Contact
  | [] => []
  | l :: rest =>
    if jsTrim l = "" then parseEnhancedLoop rest
    else
      match (match parseContactLine (jsTrim l) with
             | some c => some c
             | none => parseAlternativeFormats (jsTrim l)) with
      | some c =>
        if validateParsedContact c then c :: parseEnhancedLoop rest
        else parseEnhancedLoop rest
      | none => parseEnhancedLoop rest

/-- `parseRawContactDataEnhanced(rawData)`: the enhanced batch path. -/
def parseRawContactDataEnhanced (rawData : String) : List Contact :=
  parseEnhancedLoop ((jsSplitChar '\n' rawData).filter (fun line => jsTrim line ≠ ""))

/-!
Embedding of `server/services/duplicateDetector.js`.
-/

/-- The Levenshtein dynamic-programming table of `calculateSimilarity`:
`levMatrix s2 s1 i j` is `matrix[i][j]`, the edit distance between the
first `i` characters of `s2` and the first `j` characters of `s1`,
with the recurrence exactly as in the source (`matrix[i][0] = i`,
`matrix[0][j] = j`, diagonal on equal characters, else one plus the
minimum of the three neighbours). -/
def levMatrix (s2 s1 : List Char) : Nat → Nat → Nat
  | 0, j => j
  | i + 1, 0 => i + 1
  | i + 1, j + 1 =>
    if s2.getD i ' ' = s1.getD j ' ' then levMatrix s2 s1 i j
    else
      min (levMatrix s2 s1 i j + 1)
        (min (levMatrix s2 s1 (i + 1) j + 1) (levMatrix s2 s1 i (j + 1) + 1))

/-- `calculateSimilarity(str1, str2)`: zero on a falsy argument, one on
case-insensitive trimmed equality, else one minus the edit distance
divided by the longer length.  The value is the exact rational the
float computation approximates. -/
def calculateSimilarity (str1 str2 : String) : ℚ :=
  if str1 = "" ∨ str2 = "" then 0
  else
    let s1 := jsTrim (jsToLower str1)
    let s2 := jsTrim (jsToLower str2)
    if s1 = s2 then 1
    else
      let distance := levMatrix s2.data s1.data s2.data.length s1.data.length
      let maxLength := max s1.length s2.length
      1 - (distance : ℚ) / (maxLength : ℚ)

/-- `normalizePhoneNumber(phone)`: strip non-digits and drop a leading
`1` from an eleven-digit result. -/
def normalizePhoneNumber (phone : String) : String :=
  if phone = "" then ""
  else
    let cleaned := phone.data.filter Char.isDigit
    if cleaned.length = 11 ∧ cleaned.head? = some '1' then String.mk (cleaned.drop 1)
    else String.mk cleaned

/-- `arePhoneNumbersSimilar(phone1, phone2)`: normalized equality, or
substring containment either way, or similarity of the normalized
forms above 0.8. -/
def arePhoneNumbersSimilar (phone1 phone2 : String) : Bool :=
  if phone1 = "" ∨ phone2 = "" then false
  else
    let normalized1 := normalizePhoneNumber phone1
    let normalized2 := normalizePhoneNumber phone2
    if normalized1 = normalized2 then true
    else if jsIncludes normalized1 normalized2 || jsIncludes normalized2 normalized1 then true
    else decide (calculateSimilarity normalized1 normalized2 > 4/5)

/-- `areNamesSimilar(name1, name2)`: similarity above the 0.7
threshold. -/
def areNamesSimilar (name1 name2 : String) : Bool :=
  if name1 = "" ∨ name2 = "" then false
  else decide (calculateSimilarity name1 name2 > 7/10)

/-- `areEmailsSimilar(email1, email2)`: case-insensitive equality, or
same domain with local-part similarity above 0.8. -/
def areEmailsSimilar (email1 email2 : String) : Bool :=
  if email1 = "" ∨ email2 = "" then false
  else if jsToLower email1 = jsToLower email2 then true
  else
    let domain1 := (jsSplitChar '@' email1).getD 1 ""
    let domain2 := (jsSplitChar '@' email2).getD 1 ""
    if domain1 ≠ "" ∧ domain2 ≠ "" ∧ domain1 = domain2 then
      let username1 := (jsSplitChar '@' email1).getD 0 ""
      let username2 := (jsSplitChar '@' email2).getD 0 ""
      decide (calculateSimilarity username1 username2 > 4/5)
    else false

/-- A stored contact row as the detector and merger read it from the
corpus; a SQL `NULL` and the empty string are both falsy in the JS
code, so both are `""`. -/
structure StoredContact where
  id : Nat
  first_name : String
  last_name : String
  phone_number : String
  email : String
  relationship_type : String
  data_owner : String
  notes : String
deriving DecidableEq, Repr

/-- The concatenated full name `` `${first_name || ''} ${last_name || ''}`.trim() ``. -/
def jsFullName (r : StoredContact) : String :=
  jsTrim (r.first_name ++ " " ++ r.last_name)

/-- The phone branch guard of the detector loop: both phones truthy and
similar (weight 0.4). -/
def phoneMatchB (contact existingContact : StoredContact) : Bool :=
  contact.phone_number ≠ "" && existingContact.phone_number ≠ "" &&
    arePhoneNumbersSimilar contact.phone_number existingContact.phone_number

/-- The email branch guard of the detector loop (weight 0.4). -/
def emailMatchB (contact existingContact : StoredContact) : Bool :=
  contact.email ≠ "" && existingContact.email ≠ "" &&
    areEmailsSimilar contact.email existingContact.email

/-- The name branch guard of the detector loop: both concatenated full
names non-empty and similar (weight 0.3). -/
def nameMatchB (contact existingContact : StoredContact) : Bool :=
  jsFullName existingContact ≠ "" && jsFullName contact ≠ "" &&
    areNamesSimilar (jsFullName existingContact) (jsFullName contact)

/-- The similarity score of the detector loop, scaled by ten: 4 when
the phones match, plus 4 when the emails match, plus 3 when the names
match (the source adds the floats 0.4, 0.4, 0.3, whose comparisons
against 0.4 and 0.8 agree with this exact scaled sum). -/
def scoreOf (contact existingContact : StoredContact) : Nat :=
  (if phoneMatchB contact existingContact then 4 else 0)
  + (if emailMatchB contact existingContact then 4 else 0)
  + (if nameMatchB contact existingContact then 3 else 0)

/-- The match-reason strings accumulated by the detector loop, in
source order. -/
def reasonsOf (contact existingContact : StoredContact) : List String :=
  (if phoneMatchB contact existingContact then ["Phone number match"] else [])
  ++ (if emailMatchB contact existingContact then ["Email match"] else [])
  ++ (if nameMatchB contact existingContact then ["Name similarity"] else [])

/-- A reported duplicate match (`similarityScore` scaled by ten). -/
structure DuplicateMatch where
  existingContact : StoredContact
  similarityScore : Nat
  matchReasons : List String
  isExactMatch : Bool
deriving DecidableEq, Repr

/-- The result object of `detectDuplicates`. -/
structure DetectResult where
  hasDuplicates : Bool
  duplicates : List DuplicateMatch
  totalDuplicates : Nat
deriving DecidableEq, Repr

/-- `detectDuplicates(contact)`: the prefilter query round-trip is the
injected `queryResult`; a repository error is caught by the source
(only `executeQuery` can throw inside the `try`) and yields the empty
result; on success every returned row is scored, rows scoring at least
0.4 (scaled: 4) are kept with `isExactMatch` at 0.8 (scaled: 8), and
the kept matches are sorted by descending score (stable, as the JS
engines sort is). -/
def detectDuplicates (contact : StoredContact) (queryResult : Except String (List StoredContact)) :
    DetectResult :=
  match queryResult with
  | .error _ => { hasDuplicates := false, duplicates := [], totalDuplicates := 0 }
  | .ok rows =>
    let duplicates := rows.filterMap fun existingContact =>
      let similarityScore := scoreOf contact existingContact
      if similarityScore ≥ 4 then
        some { existingContact := existingContact,
               similarityScore := similarityScore,
               matchReasons := reasonsOf contact existingContact,
               isExactMatch := decide (similarityScore ≥ 8) }
      else none
    let sorted := duplicates.mergeSort (fun a b => b.similarityScore ≤ a.similarityScore)
    { hasDuplicates := decide (0 < sorted.length),
      duplicates := sorted,
      totalDuplicates := sorted.length }

/-- One iteration of the merge loop of `mergeContacts`: each of the
six fields of the primary is filled from the duplicate when the
primary's value is falsy and the duplicate's is truthy (the source
mutates the six fields with independent sequential `if`s), and a truthy
duplicate note is appended to the notes with the separator line
identifying the source record. -/
def mergeStep (mergedContact duplicate : StoredContact) : StoredContact :=
  { mergedContact with
    first_name := if mergedContact.first_name = "" ∧ duplicate.first_name ≠ "" then duplicate.first_name else mergedContact.first_name,
    last_name := if mergedContact.last_name = "" ∧ duplicate.last_name ≠ "" then duplicate.last_name else mergedContact.last_name,
    phone_number := if mergedContact.phone_number = "" ∧ duplicate.phone_number ≠ "" then duplicate.phone_number else mergedContact.phone_number,
    email := if mergedContact.email = "" ∧ duplicate.email ≠ "" then duplicate.email else mergedContact.email,
    relationship_type := if mergedContact.relationship_type = "" ∧ duplicate.relationship_type ≠ "" then duplicate.relationship_type else mergedContact.relationship_type,
    data_owner := if mergedContact.data_owner = "" ∧ duplicate.data_owner ≠ "" then duplicate.data_owner else mergedContact.data_owner,
    notes :=
      if duplicate.notes ≠ "" then
        if mergedContact.notes ≠ "" then
          mergedContact.notes ++ "\n\nMerged from contact ID " ++ toString duplicate.id ++ ": " ++ duplicate.notes
        else
          "Merged from contact ID " ++ toString duplicate.id ++ ": " ++ duplicate.notes
      else mergedContact.notes }

/-- The merge computation of `mergeContacts(primaryContactId,
duplicateContactIds)`: the primary row and the rows fetched for the
duplicate ids are the repository round-trips, injected here as values;
the merged record folds the duplicates into the primary in list
order. -/
def mergeContacts (primaryContact : StoredContact) (duplicates : List StoredContact) :
    StoredContact :=
  duplicates.foldl mergeStep primaryContact

/-- The first truthy value in a list of nullable strings, or `""`:
the value the fill-if-missing policy ends up with. -/
def firstTruthy (l : List String) : String :=
  (l.find? (fun s => s ≠ "")).getD ""

/-!
Helper lemmas.
-/

/-- The empty string is the string with no characters. -/
theorem stringMk_eq_empty {l : List Char} : String.mk l = "" ↔ l = [] := by
  constructor
  · intro h
    exact congrArg String.data h
  · intro h
    subst h
    rfl

/-- Filtering for digits is idempotent. -/
theorem filter_isDigit_idem (l : List Char) :
    (l.filter Char.isDigit).filter Char.isDigit = l.filter Char.isDigit := by
  refine List.filter_eq_self.mpr ?_
  intro a ha
  exact List.of_mem_filter ha

/-- Every string includes the empty string. -/
theorem jsIncludes_empty (s : String) : jsIncludes s "" = true := by
  refine List.any_eq_true.mpr ?_
  refine ⟨0, List.mem_range.mpr (Nat.succ_pos _), ?_⟩
  simp

/-- A digit-free non-empty string normalizes to the empty phone key. -/
theorem normalizePhoneNumber_no_digits (q : String) (hq : ∀ c ∈ q.data, ¬ c.isDigit) :
    normalizePhoneNumber q = "" := by
  by_cases hqe : q = ""
  · simp [normalizePhoneNumber, hqe]
  · have hfil : q.data.filter Char.isDigit = [] := by
      refine List.filter_eq_nil_iff.mpr ?_
      intro a ha
      simpa using hq a ha
    simp [normalizePhoneNumber, hqe, hfil]

/-!
Claim C6.  The spec says `calculateSimilarity(a, a) == 1` for all `a`;
the source returns 0 when either argument is falsy, so the identity
fails at the empty string and holds for all non-empty strings.
-/

/-- Counterexample to C6 as stated: at `a = ""` the self-similarity is
0, not 1, because the falsy-argument guard fires first. -/
theorem calculateSimilarity_empty_self_cex :
    calculateSimilarity "" "" = 0 ∧ calculateSimilarity "" "" ≠ 1 := by
  constructor
  · simp [calculateSimilarity]
  · simp [calculateSimilarity]

/-- C6 amended: for every non-empty string `a`, the self-similarity is
1 and the similarity of the empty string with `a` is 0. -/
theorem calculateSimilarity_refl_and_empty (a : String) (h : a ≠ "") :
    calculateSimilarity a a = 1 ∧ calculateSimilarity "" a = 0 := by
  constructor
  · simp [calculateSimilarity, h]
  · simp [calculateSimilarity]

/-- Witness for the amended C6 at the concrete string `"ab"`. -/
theorem calculateSimilarity_refl_and_empty_witness :
    calculateSimilarity "ab" "ab" = 1 ∧ calculateSimilarity "" "ab" = 0 :=
  calculateSimilarity_refl_and_empty "ab" (by decide)

/-!
Claim C9.  `normalizePhoneNumber` is idempotent.
-/

/-- Every character of a normalized phone number is a digit. -/
theorem normalizePhoneNumber_digits (x : String) :
    ∀ a ∈ (normalizePhoneNumber x).data, Char.isDigit a := by
  by_cases hx : x = ""
  · simp [normalizePhoneNumber, hx]
  · simp only [normalizePhoneNumber, if_neg hx]
    split
    · intro a ha
      exact List.of_mem_filter (List.drop_subset 1 _ ha)
    · intro a ha
      exact List.of_mem_filter ha

/-- A normalized phone number is either empty or does not itself have
eleven digits starting with 1, so the drop-country-code branch can not
fire a second time. -/
theorem normalizePhoneNumber_shape (x : String) :
    normalizePhoneNumber x = "" ∨
      ¬ ((normalizePhoneNumber x).data.length = 11 ∧
        (normalizePhoneNumber x).data.head? = some '1') := by
  by_cases hx : x = ""
  · left
    simp [normalizePhoneNumber, hx]
  · simp only [normalizePhoneNumber, if_neg hx]
    split
    · right
      rename_i hcond
      intro hcontra
      have : (List.drop 1 (x.data.filter Char.isDigit)).length = 10 := by
        rw [List.length_drop, hcond.1]
      rw [show ({ data := List.drop 1 (x.data.filter Char.isDigit) } : String).data
            = List.drop 1 (x.data.filter Char.isDigit) from rfl] at hcontra
      omega
    · right
      rename_i hcond
      exact hcond

/-- C9: normalizing a phone number twice equals normalizing it once. -/
theorem normalizePhoneNumber_idempotent (x : String) :
    normalizePhoneNumber (normalizePhoneNumber x) = normalizePhoneNumber x := by
  have hdig := normalizePhoneNumber_digits x
  have hshape := normalizePhoneNumber_shape x
  set n := normalizePhoneNumber x with hn
  by_cases hne : n = ""
  · simp [normalizePhoneNumber, hne]
  · rcases hshape with h | h
    · exact absurd h hne
    · rw [normalizePhoneNumber, if_neg hne]
      have hfil : n.data.filter Char.isDigit = n.data := List.filter_eq_self.mpr hdig
      simp only [hfil]
      rw [if_neg h]

/-!
Claim C10.  A non-empty phone string without digits normalizes to the
empty key, and the substring containment check then accepts any
partner, so `arePhoneNumbersSimilar` returns true.
-/

/-- C10: for non-empty inputs where at least one side has no digit
characters, `arePhoneNumbersSimilar` is true, via the empty normalized
form being a substring of every string. -/
theorem arePhoneNumbersSimilar_of_no_digits (p1 p2 : String) (h1 : p1 ≠ "") (h2 : p2 ≠ "")
    (h : (∀ c ∈ p1.data, ¬ c.isDigit) ∨ (∀ c ∈ p2.data, ¬ c.isDigit)) :
    arePhoneNumbersSimilar p1 p2 = true := by
  rw [arePhoneNumbersSimilar]
  rw [if_neg (by simp [h1, h2])]
  rcases h with hnd | hnd
  · have hn1 : normalizePhoneNumber p1 = "" := normalizePhoneNumber_no_digits p1 hnd
    rw [hn1]
    by_cases heq : "" = normalizePhoneNumber p2
    · rw [if_pos heq]
    · rw [if_neg heq, jsIncludes_empty, Bool.or_true, if_pos rfl]
  · have hn2 : normalizePhoneNumber p2 = "" := normalizePhoneNumber_no_digits p2 hnd
    rw [hn2]
    by_cases heq : normalizePhoneNumber p1 = ""
    · rw [if_pos heq]
    · rw [if_neg heq, jsIncludes_empty, Bool.true_or, if_pos rfl]

/-- Witness for C10: `"abc"` has no digits, so it is phone-similar to
`"555-1234"`. -/
theorem arePhoneNumbersSimilar_of_no_digits_witness :
    arePhoneNumbersSimilar "abc" "555-1234" = true :=
  arePhoneNumbersSimilar_of_no_digits "abc" "555-1234" (by decide) (by decide)
    (Or.inl (by decide))

/-!
Claim C2.  The spec says a repository error propagates unchanged out of
`detectDuplicates`; the source wraps the query and the scoring loop in
a `try`/`catch` that logs the error and falls through to returning the
(empty) result object, so the error is swallowed, not propagated.
(`mergeContacts` and `getDuplicateStats`, by contrast, rethrow.)
-/

/-- Counterexample to C2 as stated: on a repository error the call
still returns a plain result (the empty one) instead of propagating
the error. -/
theorem detectDuplicates_error_cex :
    detectDuplicates ⟨1, "John", "Doe", "1234567890", "john@x.com", "Client", "", ""⟩
      (Except.error "connection refused")
      = { hasDuplicates := false, duplicates := [], totalDuplicates := 0 } := rfl

/-- C2 amended: for every candidate and every repository error, the
error is caught and `detectDuplicates` returns the empty result
object. -/
theorem detectDuplicates_error_swallowed (contact : StoredContact) (msg : String) :
    detectDuplicates contact (Except.error msg)
      = { hasDuplicates := false, duplicates := [], totalDuplicates := 0 } := rfl

/-!
Claim C5.  The merge policy: each of the six fields keeps the primary
value when truthy, else takes the first truthy value among the
duplicates in processing order.
-/

/-- Folding the fill-if-missing step over a list of values keeps a
truthy start value and otherwise picks the first truthy list value. -/
theorem foldl_fill_eq (p : String) (l : List String) :
    l.foldl (fun m d => if m = "" ∧ d ≠ "" then d else m) p
      = if p ≠ "" then p else firstTruthy l := by
  induction l generalizing p with
  | nil =>
    by_cases hp : p = "" <;> simp [hp, firstTruthy]
  | cons d t ih =>
    by_cases hp : p = ""
    · by_cases hd : d = ""
      · simp [List.foldl_cons, hp, hd, ih, firstTruthy, List.find?]
      · simp [List.foldl_cons, hp, hd, ih, firstTruthy, List.find?]
    · simp [List.foldl_cons, hp, ih, firstTruthy]

/-- The fold of `mergeStep` acts on one string field as the
fill-if-missing fold, for any field projection that `mergeStep` updates
with the fill rule. -/
theorem mergeContacts_field (g : StoredContact → String)
    (hg : ∀ m d, g (mergeStep m d) = if g m = "" ∧ g d ≠ "" then g d else g m)
    (primary : StoredContact) (dups : List StoredContact) :
    g (mergeContacts primary dups)
      = if g primary ≠ "" then g primary else firstTruthy (dups.map g) := by
  have hfold : ∀ (l : List StoredContact) (m : StoredContact),
      g (l.foldl mergeStep m)
        = (l.map g).foldl (fun a d => if a = "" ∧ d ≠ "" then d else a) (g m) := by
    intro l
    induction l with
    | nil => intro m; rfl
    | cons d t ih =>
      intro m
      rw [List.foldl_cons, ih, List.map_cons, List.foldl_cons, hg]
  rw [mergeContacts, hfold, foldl_fill_eq]

/-- C5: for each of the six merged fields, the primary's truthy value
is never overwritten, and a falsy one is filled with the first truthy
value among the duplicates in the order processed. -/
theorem mergeContacts_policy (primary : StoredContact) (dups : List StoredContact) :
    ((mergeContacts primary dups).first_name
      = if primary.first_name ≠ "" then primary.first_name
        else firstTruthy (dups.map (fun d => d.first_name))) ∧
    ((mergeContacts primary dups).last_name
      = if primary.last_name ≠ "" then primary.last_name
        else firstTruthy (dups.map (fun d => d.last_name))) ∧
    ((mergeContacts primary dups).phone_number
      = if primary.phone_number ≠ "" then primary.phone_number
        else firstTruthy (dups.map (fun d => d.phone_number))) ∧
    ((mergeContacts primary dups).email
      = if primary.email ≠ "" then primary.email
        else firstTruthy (dups.map (fun d => d.email))) ∧
    ((mergeContacts primary dups).relationship_type
      = if primary.relationship_type ≠ "" then primary.relationship_type
        else firstTruthy (dups.map (fun d => d.relationship_type))) ∧
    ((mergeContacts primary dups).data_owner
      = if primary.data_owner ≠ "" then primary.data_owner
        else firstTruthy (dups.map (fun d => d.data_owner))) :=
  ⟨mergeContacts_field (fun r => r.first_name) (fun _ _ => rfl) primary dups,
   mergeContacts_field (fun r => r.last_name) (fun _ _ => rfl) primary dups,
   mergeContacts_field (fun r => r.phone_number) (fun _ _ => rfl) primary dups,
   mergeContacts_field (fun r => r.email) (fun _ _ => rfl) primary dups,
   mergeContacts_field (fun r => r.relationship_type) (fun _ _ => rfl) primary dups,
   mergeContacts_field (fun r => r.data_owner) (fun _ _ => rfl) primary dups⟩

/-!
Claim C7.  Batch parsing processes lines independently and returns
exactly the successfully parsed contacts with truthy first name and
phone, in input line order.  The embedding is total, reflecting that
the per-line `try`/`catch` lets no exception escape the batch call.
-/

/-- The batch loop is the ordered `filterMap` of per-line parsing with
the keep-filter over the lines. -/
theorem parseRawLoop_eq_filterMap (ls : List String) :
    parseRawLoop ls = ls.filterMap (fun l =>
      if jsTrim l = "" then none
      else
        match parseContactLine (jsTrim l) with
        | some contact =>
          if contact.first_name ≠ "" ∧ jsTruthy contact.phone_number then some contact else none
        | none => none) := by
  induction ls with
  | nil => rfl
  | cons l t ih =>
    rw [parseRawLoop, List.filterMap_cons]
    by_cases hb : jsTrim l = ""
    · simp only [hb, if_pos rfl, ite_true, ih]
    · simp only [if_neg hb]
      cases hp : parseContactLine (jsTrim l) with
      | none => simp [ih]
      | some contact =>
        by_cases hk : contact.first_name ≠ "" ∧ jsTruthy contact.phone_number
        · simp [hk, ih]
        · simp [hk, ih]

/-- C7: `parseRawContactData` equals the per-line independent parse of
the non-blank lines, keeping exactly the parsed contacts with truthy
first name and phone number, in input line order; as a total function
it lets no exception escape. -/
theorem parseRawContactData_spec (rawData : String) :
    parseRawContactData rawData
      = ((jsSplitChar '\n' rawData).filter (fun l => jsTrim l ≠ "")).filterMap
          (fun l => (parseContactLine (jsTrim l)).bind (fun contact =>
            if contact.first_name ≠ "" ∧ jsTruthy contact.phone_number then some contact
            else none)) := by
  rw [parseRawContactData, parseRawLoop_eq_filterMap]
  refine List.filterMap_congr ?_
  intro l hl
  have hb : jsTrim l ≠ "" := by
    have := List.of_mem_filter hl
    simpa using this
  rw [if_neg hb]
  cases parseContactLine (jsTrim l) <;> rfl

/-!
Claim C3.  The spec says the enhanced batch keeps only contacts whose
phone normalizes to at least ten digits; the source checks the raw
string length of the formatted phone instead, which counts formatting
punctuation, so a ten-character phone with only eight digits passes.
-/

/-- Every contact the enhanced loop emits passed
`validateParsedContact`. -/
theorem parseEnhancedLoop_validates (ls : List String) (c : Contact)
    (hc : c ∈ parseEnhancedLoop ls) : validateParsedContact c = true := by
  induction ls with
  | nil => simp [parseEnhancedLoop] at hc
  | cons l t ih =>
    rw [parseEnhancedLoop] at hc
    split at hc
    · exact ih hc
    · split at hc
      · rename_i c0 heq
        split at hc
        · rename_i hv
          rcases List.mem_cons.mp hc with hceq | hmem
          · subst hceq
            exact hv
          · exact ih hmem
        · exact ih hc
      · exact ih hc

/-- Counterexample to C3 as stated: the line `"John, 123-456-78"`
survives the enhanced path (its phone string is ten characters long),
yet its phone number contains only eight digits, fewer than ten. -/
theorem parseRawContactDataEnhanced_digits_cex :
    (⟨"John", "", some "123-456-78", none, none⟩ : Contact)
        ∈ parseRawContactDataEnhanced "John, 123-456-78" ∧
      ("123-456-78".data.filter Char.isDigit).length = 8 := by
  constructor
  · decide
  · decide

/-- C3 amended: every contact in the enhanced batch output has a
non-empty first name and a phone number string (as formatted, not its
digit count) of at least ten characters, and a truthy email in the
output contains an `@`. -/
theorem parseRawContactDataEnhanced_invariant (rawData : String) (c : Contact)
    (hc : c ∈ parseRawContactDataEnhanced rawData) :
    c.first_name ≠ "" ∧
      (∃ p, c.phone_number = some p ∧ p ≠ "" ∧ 10 ≤ p.length) ∧
      (jsTruthy c.email = true → jsIncludes (c.email.getD "") "@" = true) := by
  have hv := parseEnhancedLoop_validates _ c hc
  rw [validateParsedContact] at hv
  by_cases h1 : c.first_name = "" ∨ ¬ jsTruthy c.phone_number
  · rw [if_pos h1] at hv
    cases hv
  · rw [if_neg h1] at hv
    push_neg at h1
    obtain ⟨hfn, hpt⟩ := h1
    by_cases h2 : (c.phone_number.getD "").length < 10
    · rw [if_pos h2] at hv
      cases hv
    · rw [if_neg h2] at hv
      refine ⟨hfn, ?_, ?_⟩
      · rcases hp : c.phone_number with _ | p
        · rw [hp] at hpt
          simp [jsTruthy] at hpt
        · refine ⟨p, rfl, ?_, ?_⟩
          · rw [hp] at hpt
            simpa [jsTruthy] using hpt
          · rw [hp] at h2
            simpa using Nat.le_of_not_lt h2
      · intro het
        by_cases h3 : jsTruthy c.email ∧ ¬ jsIncludes (c.email.getD "") "@"
        · rw [if_pos h3] at hv
          cases hv
        · rcases Decidable.not_and_iff_or_not.mp h3 with hne | hii
          · exact absurd het hne
          · simpa using hii

/-- Witness for the amended C3 on the line `"John, 1234567890"`. -/
theorem parseRawContactDataEnhanced_invariant_witness :
    (⟨"John", "", some "+11234567890", none, none⟩ : Contact).first_name ≠ "" ∧
      (∃ p, (⟨"John", "", some "+11234567890", none, none⟩ : Contact).phone_number = some p ∧
        p ≠ "" ∧ 10 ≤ p.length) ∧
      (jsTruthy (⟨"John", "", some "+11234567890", none, none⟩ : Contact).email = true →
        jsIncludes ((⟨"John", "", some "+11234567890", none, none⟩ : Contact).email.getD "") "@" = true) :=
  parseRawContactDataEnhanced_invariant "John, 1234567890"
    ⟨"John", "", some "+11234567890", none, none⟩ (by decide)

/-!
Claim C8.  The strategy chain order, and the comma-strategy result on
the documented example line.
-/

/-- C8: `parseContactLine` is the first-non-null chain over the
strategies in the order comma, tab, space, pattern, and on the line
`"John Doe, +1-123-456-7890, john@example.com, Client"` the comma
strategy yields the documented contact. -/
theorem parseContactLine_chain_and_example :
    (∀ line, parseContactLine line
      = ((parseCommaSeparated line).or
          ((parseTabSeparated line).or
            ((parseSpaceSeparated line).or (parseByPattern line))))) ∧
    parseContactLine "John Doe, +1-123-456-7890, john@example.com, Client"
      = some { first_name := "John", last_name := "Doe",
               phone_number := some "+11234567890",
               email := some "john@example.com",
               relationship_type := some "Client" } := by
  constructor
  · intro line
    rw [parseContactLine]
    cases parseCommaSeparated line with
    | some c => rfl
    | none =>
      cases parseTabSeparated line with
      | some c => rfl
      | none =>
        cases parseSpaceSeparated line with
        | some c => rfl
        | none => rfl
  · decide

/-!
Claim C4.  The spec says the pattern strategy removes the matched
phone substring from the line before parsing the name.  The source
first formats the matched substring (`formatPhoneNumber(match[0])`)
and then removes the formatted string from the line; the formatted
string almost never occurs in the line, so the matched digits stay in
the name.  On `"John Doe 123-456-7890"` the matched substring is
`"123-456-7890"`, the formatted phone is `"+11234567890"`, the
replacement is a no-op, and the parsed name becomes
`("John", "Doe 123-456-7890")` instead of `("John", "Doe")`.
-/

/-- C4 (code bug evaluation): the pattern strategy leaves the matched
phone digits inside the returned last name. -/
theorem parseByPattern_leaves_match_in_name :
    parseByPattern "John Doe 123-456-7890"
      = some { first_name := "John", last_name := "Doe 123-456-7890",
               phone_number := some "+11234567890", email := none,
               relationship_type := some "Other" } ∧
    jsIncludes "Doe 123-456-7890" "123-456-7890" = true := by
  constructor
  · decide
  · decide

/-!
Claim C1.  The detector scores each prefiltered row as the weighted
sum (scaled by ten) 4 for a phone match plus 4 for an email match plus
3 for a name match on the concatenated full names, reports the row as
a duplicate exactly when the score reaches 0.4 (scaled: 4), flags
`isExactMatch` exactly when it reaches 0.8 (scaled: 8), and a phone
plus email match with no name contribution scores exactly 0.8.
-/

/-- C1: membership and flags of the detector output are governed by
the weighted score against the 0.4 and 0.8 thresholds, and a phone and
email match without name contribution scores exactly 0.8. -/
theorem detectDuplicates_scoring (contact : StoredContact) (rows : List StoredContact) :
    (∀ m ∈ (detectDuplicates contact (Except.ok rows)).duplicates,
      m.existingContact ∈ rows ∧
      m.similarityScore = scoreOf contact m.existingContact ∧
      4 ≤ m.similarityScore ∧
      (m.isExactMatch = true ↔ 8 ≤ m.similarityScore)) ∧
    (∀ e ∈ rows, 4 ≤ scoreOf contact e →
      ∃ m ∈ (detectDuplicates contact (Except.ok rows)).duplicates, m.existingContact = e) ∧
    (∀ e, phoneMatchB contact e = true → emailMatchB contact e = true →
      nameMatchB contact e = false → scoreOf contact e = 8) := by
  have hmem : ∀ m, m ∈ (detectDuplicates contact (Except.ok rows)).duplicates ↔
      m ∈ rows.filterMap (fun existingContact =>
        if scoreOf contact existingContact ≥ 4 then
          some { existingContact := existingContact,
                 similarityScore := scoreOf contact existingContact,
                 matchReasons := reasonsOf contact existingContact,
                 isExactMatch := decide (scoreOf contact existingContact ≥ 8) }
        else none) := by
    intro m
    exact (List.mergeSort_perm _ _).mem_iff
  refine ⟨?_, ?_, ?_⟩
  · intro m hm
    obtain ⟨e, he, hfe⟩ := List.mem_filterMap.mp ((hmem m).mp hm)
    by_cases hs : scoreOf contact e ≥ 4
    · rw [if_pos hs] at hfe
      obtain rfl := Option.some_injective _ hfe
      refine ⟨he, rfl, hs, ?_⟩
      simp
    · rw [if_neg hs] at hfe
      cases hfe
  · intro e he hs
    refine ⟨{ existingContact := e, similarityScore := scoreOf contact e,
              matchReasons := reasonsOf contact e,
              isExactMatch := decide (scoreOf contact e ≥ 8) }, ?_, rfl⟩
    refine (hmem _).mpr (List.mem_filterMap.mpr ⟨e, he, ?_⟩)
    rw [if_pos hs]
  · intro e hp hem hn
    rw [scoreOf, hp, hem, hn]
    rfl

/-- Witness for C1: a stored row with the same phone and email as the
candidate and no name data is reported as a duplicate. -/
theorem detectDuplicates_scoring_witness :
    ∃ m ∈ (detectDuplicates ⟨0, "", "", "1234567890", "a@b.com", "", "", ""⟩
        (Except.ok [⟨7, "", "", "1234567890", "a@b.com", "", "", ""⟩])).duplicates,
      m.existingContact = ⟨7, "", "", "1234567890", "a@b.com", "", "", ""⟩ :=
  (detectDuplicates_scoring ⟨0, "", "", "1234567890", "a@b.com", "", "", ""⟩
      [⟨7, "", "", "1234567890", "a@b.com", "", "", ""⟩]).2.1
    ⟨7, "", "", "1234567890", "a@b.com", "", "", ""⟩ (by decide) (by decide)
